import Mathlib

/-!
Verification of the gesture-to-stroke pipeline of the finger-drawing app
(`src/App.tsx`, `src/types.ts`).

The stateful React component is embedded as a pure state type `AppState`
(the refs `pathsRef`, `currentPathRef`, `colorRef`, `widthRef` and the
`gestureMode` state variable) together with explicit state-passing
functions for each callback (`finishPath`, `onResults`, `clearCanvas`).
Canvas-space numbers (JS `number`) are embedded as rationals `ℚ`.
-/

namespace VisionDraw

/-- Structure `Point` from `src/types.ts`: a canvas-space coordinate. -/
structure Point where
  x : ℚ
  y : ℚ
deriving DecidableEq, Repr

/-- Structure `DrawingPath` from `src/types.ts`: a finalized stroke with its style. -/
structure DrawingPath where
  points : List Point
  color : String
  width : ℚ
deriving DecidableEq, Repr

/-- Enumeration `GestureMode` from `src/types.ts`. -/
inductive GestureMode where
  | DRAWING
  | HOVERING
  | IDLE
deriving DecidableEq, Repr

/-- One landmark of the hand-pose result: a normalized coordinate pair
(the code reads only `.x` and `.y` of landmarks 6, 8 and 12). -/
structure Landmark where
  x : ℚ
  y : ℚ
deriving DecidableEq, Repr

/-- A detected hand: the indexed landmark collection
`results.multiHandLandmarks[0]` (MediaPipe guarantees 21 entries;
the code indexes it at 6, 8 and 12). -/
def Hand : Type := Nat → Landmark

/-- Both canvases are created with `width={1280}` in `src/App.tsx`. -/
def canvasWidth : ℚ := 1280

/-- Both canvases are created with `height={720}` in `src/App.tsx`. -/
def canvasHeight : ℚ := 720

/-- The mutable state of the component that the gesture pipeline touches:
`pathsRef` (the persistent drawing surface), `currentPathRef` (the live
stroke), `colorRef`/`widthRef` (current style, kept in sync with the UI
state), and the `gestureMode` state variable. -/
structure AppState where
  paths : List DrawingPath
  currentPath : List Point
  color : String
  width : ℚ
  gestureMode : GestureMode
deriving DecidableEq, Repr

/-- The component's initial state: `useState` initializers in
`src/App.tsx` lines 9-11 and the empty refs in lines 21-22. -/
def initState : AppState :=
  { paths := []
    currentPath := []
    color := "#ffffff"
    width := 5
    gestureMode := GestureMode.IDLE }

/-- Callback `finishPath` (`src/App.tsx` lines 56-66): if the live path is
non-empty, push a copy of it onto `pathsRef` with the current style and
clear it (the `renderMainCanvas()` call only repaints pixels and is
modelled separately). -/
def finishPath (s : AppState) : AppState :=
  if s.currentPath.length > 0 then
    { s with
        paths := s.paths ++ [{ points := s.currentPath
                               color := s.color
                               width := s.width }]
        currentPath := [] }
  else s

/-- The mode decision of `onResults` (`src/App.tsx` lines 114-128):
`isIndexExtended = indexTip.y < indexPip.y`,
`isMiddleExtended = middleTip.y < indexPip.y`, with
`landmarks[8]` the index tip, `landmarks[12]` the middle tip and
`landmarks[6]` the index PIP joint. -/
def classify (lm : Hand) : GestureMode :=
  let isIndexExtended : Bool := decide ((lm 8).y < (lm 6).y)
  let isMiddleExtended : Bool := decide ((lm 12).y < (lm 6).y)
  if isIndexExtended && !isMiddleExtended then GestureMode.DRAWING
  else if isIndexExtended && isMiddleExtended then GestureMode.HOVERING
  else GestureMode.IDLE

/-- The classifier applied to a frame result: `onResults` treats
`results.multiHandLandmarks` being absent or empty as IDLE
(`src/App.tsx` lines 100, 135-138). -/
def classifyFrame : Option Hand → GestureMode
  | none => GestureMode.IDLE
  | some lm => classify lm

/-- The fingertip cursor position of `onResults`
(`src/App.tsx` lines 111-112):
`x = (1 - indexTip.x) * width`, `y = indexTip.y * height`. -/
def cursorPos (lm : Hand) : Point :=
  { x := (1 - (lm 8).x) * canvasWidth
    y := (lm 8).y * canvasHeight }

/-- The state change of one `onResults` call (`src/App.tsx` lines
87-141) for a frame result carrying zero or one hands.  In the DRAWING
branch the cursor point is pushed onto `currentPathRef` (the `drawLive()`
call only paints the last segment); in the HOVERING and IDLE branches,
and when no hand is detected, `finishPath()` runs after `setGestureMode`.
Skeleton/cursor drawing on the overlay canvas has no state effect. -/
def onResults (s : AppState) (hand : Option Hand) : AppState :=
  match hand with
  | some lm =>
    match classify lm with
    | GestureMode.DRAWING =>
        { s with
            gestureMode := GestureMode.DRAWING
            currentPath := s.currentPath ++ [cursorPos lm] }
    | GestureMode.HOVERING =>
        finishPath { s with gestureMode := GestureMode.HOVERING }
    | GestureMode.IDLE =>
        finishPath { s with gestureMode := GestureMode.IDLE }
  | none => finishPath { s with gestureMode := GestureMode.IDLE }

/-- Handler `clearCanvas` (`src/App.tsx` lines 201-206): empty both `pathsRef`
and `currentPathRef` (the repaint and `setAnalysis(null)` have no effect
on the modelled state). -/
def clearCanvas (s : AppState) : AppState :=
  { s with paths := [], currentPath := [] }

/-- A stroked-polyline draw call issued by the persistent-layer
renderer: one `beginPath`/`moveTo`/`lineTo*`/`stroke` group. -/
structure DrawCall where
  points : List Point
  color : String
  width : ℚ
deriving DecidableEq, Repr

/-- Callback `renderMainCanvas` (`src/App.tsx` lines 35-54), abstracted to the
list of polyline draw calls it issues after the full clear: one call per
stroke, skipping (`return`) every path with fewer than 2 points. -/
def renderMainCanvas (paths : List DrawingPath) : List DrawCall :=
  paths.filterMap fun p =>
    if p.points.length < 2 then none
    else some { points := p.points, color := p.color, width := p.width }

/-- The external events that mutate the modelled state: a hand-tracking
frame result (`onResults`), the UI style setters (`setBrushColor` /
`setBrushWidth`, synced into the refs by the `useEffect`s at
`src/App.tsx` lines 27-33), and the Clear button (`clearCanvas`). -/
inductive Event where
  | frame (hand : Option Hand)
  | setBrushColor (c : String)
  | setBrushWidth (w : ℚ)
  | clear

/-- One event applied to the state. -/
def step (s : AppState) : Event → AppState
  | Event.frame hand => onResults s hand
  | Event.setBrushColor c => { s with color := c }
  | Event.setBrushWidth w => { s with width := w }
  | Event.clear => clearCanvas s

/-- A whole session: events applied in order from a starting state. -/
def run (s : AppState) (evs : List Event) : AppState :=
  evs.foldl step s

/-- A concrete hand posture classifying as DRAWING whose cursor lands
exactly at canvas point `(px, py)`: index tip above the PIP joint,
middle tip below it. -/
def handDrawingAt (px py : ℚ) : Hand := fun i =>
  if i = 8 then { x := 1 - px / 1280, y := py / 720 }
  else if i = 12 then { x := 0, y := 1 }
  else { x := 0, y := 1 / 2 }

/-- A concrete closed-hand posture classifying as IDLE: index tip not
above the PIP joint. -/
def handIdle : Hand := fun _ => { x := 0, y := 1 / 2 }

/-- Evaluation: a `handDrawingAt` posture with `0 ≤ py < 360` classifies
as DRAWING. -/
theorem classify_handDrawingAt (px py : ℚ) (h : py < 360) :
    classify (handDrawingAt px py) = GestureMode.DRAWING := by
  unfold classify handDrawingAt
  norm_num
  intro h2
  linarith

/-- Evaluation: the cursor of a `handDrawingAt px py` posture is exactly
the canvas point `(px, py)`. -/
theorem cursorPos_handDrawingAt (px py : ℚ) :
    cursorPos (handDrawingAt px py) = { x := px, y := py } := by
  unfold cursorPos handDrawingAt canvasWidth canvasHeight
  norm_num

/-- Evaluation: the closed-hand posture classifies as IDLE. -/
theorem classify_handIdle : classify handIdle = GestureMode.IDLE := by
  unfold classify handIdle
  norm_num


/-! ## Basic lemmas about the pipeline steps -/

/-- A finalize with an empty live path changes nothing. -/
theorem finishPath_empty (s : AppState) (h : s.currentPath = []) :
    finishPath s = s := by
  simp [finishPath, h]

/-- A finalize with a non-empty live path appends exactly one stroke,
carrying the live points and the current style, and clears the live path. -/
theorem finishPath_nonempty (s : AppState) (h : s.currentPath ≠ []) :
    finishPath s =
      { s with
          paths := s.paths ++ [{ points := s.currentPath
                                 color := s.color
                                 width := s.width }]
          currentPath := [] } := by
  have hl : s.currentPath.length > 0 := List.length_pos.mpr h
  simp [finishPath, hl]

/-- After any finalize the live path is empty. -/
theorem finishPath_currentPath (s : AppState) : (finishPath s).currentPath = [] := by
  by_cases h : s.currentPath = []
  · rw [finishPath_empty s h]; exact h
  · rw [finishPath_nonempty s h]

/-- Finalizing never touches the gesture mode. -/
theorem finishPath_gestureMode (s : AppState) :
    (finishPath s).gestureMode = s.gestureMode := by
  by_cases h : s.currentPath = []
  · rw [finishPath_empty s h]
  · rw [finishPath_nonempty s h]

/-- A frame classified DRAWING only sets the mode and pushes the cursor
point onto the live path. -/
theorem onResults_drawing (s : AppState) (lm : Hand)
    (h : classify lm = GestureMode.DRAWING) :
    onResults s (some lm) =
      { s with
          gestureMode := GestureMode.DRAWING
          currentPath := s.currentPath ++ [cursorPos lm] } := by
  simp [onResults, h]

/-- A frame not classified DRAWING sets the mode and runs `finishPath`. -/
theorem onResults_not_drawing (s : AppState) (hand : Option Hand)
    (h : classifyFrame hand ≠ GestureMode.DRAWING) :
    onResults s hand = finishPath { s with gestureMode := classifyFrame hand } := by
  match hand with
  | none => rfl
  | some lm =>
    match hm : classify lm with
    | GestureMode.DRAWING => exact absurd hm h
    | GestureMode.HOVERING => simp [onResults, classifyFrame, hm]
    | GestureMode.IDLE => simp [onResults, classifyFrame, hm]

/-- Unfolding one event of a session run. -/
theorem run_cons (s : AppState) (e : Event) (evs : List Event) :
    run s (e :: evs) = run (step s e) evs := rfl

/-- A run of consecutive DRAWING frames appends exactly the cursor
points to the live path and leaves the surface and the style alone. -/
theorem drawRun (hs : List Hand) :
    ∀ s : AppState, (∀ lm ∈ hs, classify lm = GestureMode.DRAWING) →
      (run s (hs.map fun lm => Event.frame (some lm))).currentPath
          = s.currentPath ++ hs.map cursorPos ∧
      (run s (hs.map fun lm => Event.frame (some lm))).paths = s.paths ∧
      (run s (hs.map fun lm => Event.frame (some lm))).color = s.color ∧
      (run s (hs.map fun lm => Event.frame (some lm))).width = s.width := by
  induction hs with
  | nil => intro s _; simp [run]
  | cons a t ih =>
    intro s hall
    have ha : classify a = GestureMode.DRAWING := hall a (List.mem_cons_self a t)
    have ht : ∀ lm ∈ t, classify lm = GestureMode.DRAWING :=
      fun lm hm => hall lm (List.mem_cons_of_mem a hm)
    have hstep : step s (Event.frame (some a)) =
        { s with
            gestureMode := GestureMode.DRAWING
            currentPath := s.currentPath ++ [cursorPos a] } := by
      show onResults s (some a) = _
      exact onResults_drawing s a ha
    obtain ⟨h1, h2, h3, h4⟩ :=
      ih { s with
             gestureMode := GestureMode.DRAWING
             currentPath := s.currentPath ++ [cursorPos a] } ht
    simp only [List.map_cons, run_cons, hstep]
    refine ⟨?_, ?_, ?_, ?_⟩
    · rw [h1]; simp
    · rw [h2]
    · rw [h3]
    · rw [h4]

/-! ## Concrete sessions, evaluated -/

/-- Evaluation: one DRAWING frame at `(5,5)` followed by an IDLE frame
puts a single one-point stroke on the surface. -/
theorem run_tap_then_idle :
    run initState
        [Event.frame (some (handDrawingAt 5 5)), Event.frame (some handIdle)]
      = { paths := [{ points := [{ x := 5, y := 5 }]
                      color := "#ffffff"
                      width := 5 }]
          currentPath := []
          color := "#ffffff"
          width := 5
          gestureMode := GestureMode.IDLE } := by
  have h1 : classify (handDrawingAt 5 5) = GestureMode.DRAWING :=
    classify_handDrawingAt 5 5 (by norm_num)
  have hIF : classifyFrame (some handIdle) = GestureMode.IDLE := by
    simp [classifyFrame, classify_handIdle]
  have s1 : step initState (Event.frame (some (handDrawingAt 5 5)))
      = { paths := []
          currentPath := [{ x := 5, y := 5 }]
          color := "#ffffff"
          width := 5
          gestureMode := GestureMode.DRAWING } := by
    show onResults initState (some (handDrawingAt 5 5)) = _
    rw [onResults_drawing _ _ h1, cursorPos_handDrawingAt]
    rfl
  have s2 : step
      { paths := []
        currentPath := [{ x := 5, y := 5 }]
        color := "#ffffff"
        width := (5 : ℚ)
        gestureMode := GestureMode.DRAWING } (Event.frame (some handIdle))
      = { paths := [{ points := [{ x := 5, y := 5 }]
                      color := "#ffffff"
                      width := 5 }]
          currentPath := []
          color := "#ffffff"
          width := 5
          gestureMode := GestureMode.IDLE } := by
    show onResults _ (some handIdle) = _
    rw [onResults_not_drawing _ _ (by rw [hIF]; exact fun hc => nomatch hc), hIF,
      finishPath_nonempty _ (by simp)]
    rfl
  rw [run_cons, s1, run_cons, s2]
  rfl

/-- Evaluation: from the state the tap left behind, frames DRAWING at
`(6,6)`, DRAWING at `(7,7)` and then IDLE append one two-point stroke. -/
theorem run_second_stroke :
    run { paths := [{ points := [{ x := 5, y := 5 }]
                      color := "#ffffff"
                      width := 5 }]
          currentPath := []
          color := "#ffffff"
          width := 5
          gestureMode := GestureMode.IDLE }
        [Event.frame (some (handDrawingAt 6 6)), Event.frame (some (handDrawingAt 7 7)),
          Event.frame (some handIdle)]
      = { paths := [{ points := [{ x := 5, y := 5 }]
                      color := "#ffffff"
                      width := 5 },
                    { points := [{ x := 6, y := 6 }, { x := 7, y := 7 }]
                      color := "#ffffff"
                      width := 5 }]
          currentPath := []
          color := "#ffffff"
          width := 5
          gestureMode := GestureMode.IDLE } := by
  have h6 : classify (handDrawingAt 6 6) = GestureMode.DRAWING :=
    classify_handDrawingAt 6 6 (by norm_num)
  have h7 : classify (handDrawingAt 7 7) = GestureMode.DRAWING :=
    classify_handDrawingAt 7 7 (by norm_num)
  have hIF : classifyFrame (some handIdle) = GestureMode.IDLE := by
    simp [classifyFrame, classify_handIdle]
  have t1 : step
      { paths := [{ points := [{ x := 5, y := 5 }]
                    color := "#ffffff"
                    width := (5 : ℚ) }]
        currentPath := []
        color := "#ffffff"
        width := (5 : ℚ)
        gestureMode := GestureMode.IDLE } (Event.frame (some (handDrawingAt 6 6)))
      = { paths := [{ points := [{ x := 5, y := 5 }]
                      color := "#ffffff"
                      width := 5 }]
          currentPath := [{ x := 6, y := 6 }]
          color := "#ffffff"
          width := 5
          gestureMode := GestureMode.DRAWING } := by
    show onResults _ (some (handDrawingAt 6 6)) = _
    rw [onResults_drawing _ _ h6, cursorPos_handDrawingAt]
    rfl
  have t2 : step
      { paths := [{ points := [{ x := 5, y := 5 }]
                    color := "#ffffff"
                    width := (5 : ℚ) }]
        currentPath := [{ x := 6, y := 6 }]
        color := "#ffffff"
        width := (5 : ℚ)
        gestureMode := GestureMode.DRAWING } (Event.frame (some (handDrawingAt 7 7)))
      = { paths := [{ points := [{ x := 5, y := 5 }]
                      color := "#ffffff"
                      width := 5 }]
          currentPath := [{ x := 6, y := 6 }, { x := 7, y := 7 }]
          color := "#ffffff"
          width := 5
          gestureMode := GestureMode.DRAWING } := by
    show onResults _ (some (handDrawingAt 7 7)) = _
    rw [onResults_drawing _ _ h7, cursorPos_handDrawingAt]
    rfl
  have t3 : step
      { paths := [{ points := [{ x := 5, y := 5 }]
                    color := "#ffffff"
                    width := (5 : ℚ) }]
        currentPath := [{ x := 6, y := 6 }, { x := 7, y := 7 }]
        color := "#ffffff"
        width := (5 : ℚ)
        gestureMode := GestureMode.DRAWING } (Event.frame (some handIdle))
      = { paths := [{ points := [{ x := 5, y := 5 }]
                      color := "#ffffff"
                      width := 5 },
                    { points := [{ x := 6, y := 6 }, { x := 7, y := 7 }]
                      color := "#ffffff"
                      width := 5 }]
          currentPath := []
          color := "#ffffff"
          width := 5
          gestureMode := GestureMode.IDLE } := by
    show onResults _ (some handIdle) = _
    rw [onResults_not_drawing _ _ (by rw [hIF]; exact fun hc => nomatch hc), hIF,
      finishPath_nonempty _ (by simp)]
    rfl
  rw [run_cons, t1, run_cons, t2, run_cons, t3]
  rfl

/-! ## The surface invariant the code actually maintains -/

/-- Finalizing preserves "every surface stroke has at least one point":
`finishPath` only appends when the live path is non-empty. -/
theorem finishPath_preserves_nonempty (s : AppState)
    (h : ∀ p ∈ s.paths, 1 ≤ p.points.length) :
    ∀ p ∈ (finishPath s).paths, 1 ≤ p.points.length := by
  by_cases hc : s.currentPath = []
  · rw [finishPath_empty s hc]; exact h
  · rw [finishPath_nonempty s hc]
    intro p hp
    rcases List.mem_append.mp hp with h1 | h2
    · exact h p h1
    · rw [List.mem_singleton.mp h2]
      exact List.length_pos.mpr hc
/-- Every event preserves "every surface stroke has at least one point". -/
theorem step_preserves_nonempty (s : AppState) (e : Event)
    (h : ∀ p ∈ s.paths, 1 ≤ p.points.length) :
    ∀ p ∈ (step s e).paths, 1 ≤ p.points.length := by
  match e with
  | Event.frame hand =>
    show ∀ p ∈ (onResults s hand).paths, 1 ≤ p.points.length
    match hand with
    | none => exact finishPath_preserves_nonempty _ h
    | some lm =>
      match hm : classify lm with
      | GestureMode.DRAWING => rw [onResults_drawing s lm hm]; exact h
      | GestureMode.HOVERING => simp only [onResults, hm]; exact finishPath_preserves_nonempty _ h
      | GestureMode.IDLE => simp only [onResults, hm]; exact finishPath_preserves_nonempty _ h
  | Event.setBrushColor c => exact h
  | Event.setBrushWidth w => exact h
  | Event.clear => intro p hp; exact absurd hp (List.not_mem_nil p)

/-- Any session run preserves "every surface stroke has at least one
point". -/
theorem run_preserves_nonempty (evs : List Event) :
    ∀ s : AppState, (∀ p ∈ s.paths, 1 ≤ p.points.length) →
      ∀ p ∈ (run s evs).paths, 1 ≤ p.points.length := by
  induction evs with
  | nil => intro s h; exact h
  | cons e t ih =>
    intro s h
    rw [run_cons]
    exact ih _ (step_preserves_nonempty s e h)

/-! ## Classifier characterization -/

/-- Index tip above the PIP joint and middle tip not above it classify
as DRAWING. -/
theorem classify_drawing_of (lm : Hand)
    (h1 : (lm 8).y < (lm 6).y) (h2 : (lm 6).y ≤ (lm 12).y) :
    classify lm = GestureMode.DRAWING := by
  unfold classify
  simp [h1, not_lt.mpr h2]

/-- Both tips above the PIP joint classify as HOVERING. -/
theorem classify_hovering_of (lm : Hand)
    (h1 : (lm 8).y < (lm 6).y) (h2 : (lm 12).y < (lm 6).y) :
    classify lm = GestureMode.HOVERING := by
  unfold classify
  simp [h1, h2]

/-- An index tip not above the PIP joint classifies as IDLE. -/
theorem classify_idle_of (lm : Hand) (h1 : ¬ (lm 8).y < (lm 6).y) :
    classify lm = GestureMode.IDLE := by
  unfold classify
  simp [h1]

/-- The mode a frame leaves in the state is the classifier's output. -/
theorem onResults_gestureMode (s : AppState) (hand : Option Hand) :
    (onResults s hand).gestureMode = classifyFrame hand := by
  match hand with
  | none =>
    show (finishPath { s with gestureMode := GestureMode.IDLE }).gestureMode = _
    rw [finishPath_gestureMode]
    rfl
  | some lm =>
    match hm : classify lm with
    | GestureMode.DRAWING =>
      rw [onResults_drawing s lm hm]
      simp [classifyFrame, hm]
    | GestureMode.HOVERING =>
      simp only [onResults, hm]
      rw [finishPath_gestureMode]
      simp [classifyFrame, hm]
    | GestureMode.IDLE =>
      simp only [onResults, hm]
      rw [finishPath_gestureMode]
      simp [classifyFrame, hm]

/-- A non-DRAWING frame finalizes a non-empty live path: exactly one
stroke carrying the live points and the current style is appended, and
the live path is cleared. -/
theorem onResults_finalize (s : AppState) (hand : Option Hand)
    (hnd : classifyFrame hand ≠ GestureMode.DRAWING) (hne : s.currentPath ≠ []) :
    (onResults s hand).paths
        = s.paths ++ [{ points := s.currentPath, color := s.color, width := s.width }] ∧
    (onResults s hand).currentPath = [] := by
  rw [onResults_not_drawing _ _ hnd,
    finishPath_nonempty { s with gestureMode := classifyFrame hand } hne]
  exact ⟨rfl, rfl⟩

/-! ## The claims -/

/-- C1: with a detected hand the frame yields DRAWING when
`indexTip.y < indexPip.y` and `middleTip.y ≥ indexPip.y`, HOVERING when
`indexTip.y < indexPip.y` and `middleTip.y < indexPip.y`, and IDLE
otherwise; with no detected hand it yields IDLE. -/
theorem gesture_classification (s : AppState) (lm : Hand) :
    (((lm 8).y < (lm 6).y ∧ (lm 6).y ≤ (lm 12).y →
        (onResults s (some lm)).gestureMode = GestureMode.DRAWING)) ∧
    (((lm 8).y < (lm 6).y ∧ (lm 12).y < (lm 6).y →
        (onResults s (some lm)).gestureMode = GestureMode.HOVERING)) ∧
    ((¬ (lm 8).y < (lm 6).y →
        (onResults s (some lm)).gestureMode = GestureMode.IDLE)) ∧
    (onResults s none).gestureMode = GestureMode.IDLE := by
  refine ⟨fun h => ?_, fun h => ?_, fun h => ?_, ?_⟩
  · rw [onResults_gestureMode]
    exact classify_drawing_of lm h.1 h.2
  · rw [onResults_gestureMode]
    exact classify_hovering_of lm h.1 h.2
  · rw [onResults_gestureMode]
    exact classify_idle_of lm h
  · rw [onResults_gestureMode]
    rfl

/-- C1 witness: the concrete DRAWING posture evaluated. -/
theorem gesture_classification_witness :
    (onResults initState (some (handDrawingAt 5 5))).gestureMode = GestureMode.DRAWING :=
  (gesture_classification initState (handDrawingAt 5 5)).1
    ⟨by norm_num [handDrawingAt], by norm_num [handDrawingAt]⟩
/-- C2 as stated is false on the code: a single DRAWING tap at `(5,5)`
followed by an IDLE frame puts a one-point stroke on the surface
(`finishPath` guards only against an empty live path). -/
theorem single_point_stroke_on_surface :
    ∃ p ∈ (run initState
        [Event.frame (some (handDrawingAt 5 5)), Event.frame (some handIdle)]).paths,
      p.points.length < 2 := by
  rw [run_tap_then_idle]
  exact ⟨_, List.mem_singleton_self _, by simp⟩

/-- C2 (amended): every stroke on the surface of any state reachable from
the initial state has at least one point — `finishPath` never appends an
empty stroke, but one-point strokes do reach the surface. -/
theorem surface_strokes_have_a_point (evs : List Event) :
    ∀ p ∈ (run initState evs).paths, 1 ≤ p.points.length :=
  run_preserves_nonempty evs initState (fun p hp => absurd hp (List.not_mem_nil p))

/-- C2 witness: the amended invariant evaluated on the tap session. -/
theorem surface_strokes_have_a_point_witness :
    1 ≤ ({ points := [{ x := 5, y := 5 }]
           color := "#ffffff"
           width := 5 } : DrawingPath).points.length :=
  surface_strokes_have_a_point
    [Event.frame (some (handDrawingAt 5 5)), Event.frame (some handIdle)]
    { points := [{ x := 5, y := 5 }], color := "#ffffff", width := 5 }
    (by rw [run_tap_then_idle]; exact List.mem_singleton_self _)

/-- C3: from an empty live path, N ≥ 1 consecutive DRAWING frames build a
live path of length N; the next non-DRAWING frame appends exactly one
N-point stroke to the surface and empties the live path. -/
theorem drawing_frames_then_finalize (s : AppState) (hs : List Hand) (hand : Option Hand)
    (hne : hs ≠ []) (hall : ∀ lm ∈ hs, classify lm = GestureMode.DRAWING)
    (hemp : s.currentPath = []) (hnd : classifyFrame hand ≠ GestureMode.DRAWING) :
    (run s (hs.map fun lm => Event.frame (some lm))).currentPath.length = hs.length ∧
    (onResults (run s (hs.map fun lm => Event.frame (some lm))) hand).currentPath = [] ∧
    ∃ stroke : DrawingPath,
      (onResults (run s (hs.map fun lm => Event.frame (some lm))) hand).paths
          = s.paths ++ [stroke] ∧
      stroke.points.length = hs.length := by
  obtain ⟨h1, h2, _, _⟩ := drawRun hs s hall
  have hcp : (run s (hs.map fun lm => Event.frame (some lm))).currentPath
      = hs.map cursorPos := by
    rw [h1, hemp, List.nil_append]
  have hlen : (run s (hs.map fun lm => Event.frame (some lm))).currentPath.length
      = hs.length := by
    rw [hcp, List.length_map]
  have hne2 : (run s (hs.map fun lm => Event.frame (some lm))).currentPath ≠ [] := by
    rw [hcp]
    intro hmap
    exact hne (List.map_eq_nil_iff.mp hmap)
  obtain ⟨hp, hc⟩ := onResults_finalize _ hand hnd hne2
  refine ⟨hlen, hc,
    ⟨{ points := (run s (hs.map fun lm => Event.frame (some lm))).currentPath
       color := (run s (hs.map fun lm => Event.frame (some lm))).color
       width := (run s (hs.map fun lm => Event.frame (some lm))).width }, ?_, hlen⟩⟩
  rw [hp, h2]

/-- C3 witness: one DRAWING frame then an IDLE frame, evaluated. -/
theorem drawing_frames_then_finalize_witness :
    (run initState ([handDrawingAt 5 5].map fun lm => Event.frame (some lm))).currentPath.length
        = [handDrawingAt 5 5].length ∧
    (onResults (run initState ([handDrawingAt 5 5].map fun lm => Event.frame (some lm)))
        (some handIdle)).currentPath = [] ∧
    ∃ stroke : DrawingPath,
      (onResults (run initState ([handDrawingAt 5 5].map fun lm => Event.frame (some lm)))
          (some handIdle)).paths
        = initState.paths ++ [stroke] ∧
      stroke.points.length = [handDrawingAt 5 5].length :=
  drawing_frames_then_finalize initState [handDrawingAt 5 5] (some handIdle)
    (by simp)
    (by
      intro lm hm
      rw [List.mem_singleton.mp hm]
      exact classify_handDrawingAt 5 5 (by norm_num))
    rfl
    (by simp [classifyFrame, classify_handIdle])

/-- C4: the frame sequence DRAWING at `(5,5)`, IDLE, DRAWING at `(6,6)`,
DRAWING at `(7,7)`, IDLE leaves exactly 2 strokes on the surface, the
second made of exactly the points `(6,6)` and `(7,7)`. -/
theorem scenario_two_strokes :
    (run initState
        [Event.frame (some (handDrawingAt 5 5)), Event.frame (some handIdle),
         Event.frame (some (handDrawingAt 6 6)), Event.frame (some (handDrawingAt 7 7)),
         Event.frame (some handIdle)]).paths.length = 2 ∧
    (run initState
        [Event.frame (some (handDrawingAt 5 5)), Event.frame (some handIdle),
         Event.frame (some (handDrawingAt 6 6)), Event.frame (some (handDrawingAt 7 7)),
         Event.frame (some handIdle)]).paths.map (fun p => p.points)
      = [[{ x := 5, y := 5 }], [{ x := 6, y := 6 }, { x := 7, y := 7 }]] := by
  have hfull : run initState
      [Event.frame (some (handDrawingAt 5 5)), Event.frame (some handIdle),
       Event.frame (some (handDrawingAt 6 6)), Event.frame (some (handDrawingAt 7 7)),
       Event.frame (some handIdle)]
      = run (run initState
          [Event.frame (some (handDrawingAt 5 5)), Event.frame (some handIdle)])
          [Event.frame (some (handDrawingAt 6 6)), Event.frame (some (handDrawingAt 7 7)),
           Event.frame (some handIdle)] := rfl
  rw [hfull, run_tap_then_idle, run_second_stroke]
  exact ⟨rfl, rfl⟩

/-- C5: the stroke appended at finalization carries the style current at
that moment — points collected under the old style are finalized with
the new one. -/
theorem style_bound_at_finalize (s : AppState) (c : String) (w : ℚ) (hand : Option Hand)
    (hne : s.currentPath ≠ []) (hnd : classifyFrame hand ≠ GestureMode.DRAWING) :
    (run s [Event.setBrushColor c, Event.setBrushWidth w, Event.frame hand]).paths
      = s.paths ++ [{ points := s.currentPath, color := c, width := w }] := by
  show (onResults { s with color := c, width := w } hand).paths = _
  exact (onResults_finalize { s with color := c, width := w } hand hnd hne).1

/-- C5 witness: a live path begun under white width 5, finalized after a
mid-stroke switch to blue width 9. -/
theorem style_bound_at_finalize_witness :
    (run { paths := []
           currentPath := [{ x := 1, y := 2 }]
           color := "#ffffff"
           width := 5
           gestureMode := GestureMode.DRAWING }
        [Event.setBrushColor "#3b82f6", Event.setBrushWidth 9,
          Event.frame (some handIdle)]).paths
      = ({ paths := []
           currentPath := [{ x := 1, y := 2 }]
           color := "#ffffff"
           width := 5
           gestureMode := GestureMode.DRAWING } : AppState).paths
        ++ [{ points := [{ x := 1, y := 2 }], color := "#3b82f6", width := 9 }] :=
  style_bound_at_finalize
    { paths := []
      currentPath := [{ x := 1, y := 2 }]
      color := "#ffffff"
      width := 5
      gestureMode := GestureMode.DRAWING }
    "#3b82f6" 9 (some handIdle)
    (by simp)
    (by simp [classifyFrame, classify_handIdle])

/-- C6: after any frame whose outcome is not DRAWING the live path is
empty; a non-empty live path is finalized onto the surface as part of
that frame. -/
theorem nondrawing_frame_clears_live (s : AppState) (hand : Option Hand)
    (h : classifyFrame hand ≠ GestureMode.DRAWING) :
    (onResults s hand).currentPath = [] ∧
    (s.currentPath ≠ [] →
      (onResults s hand).paths
        = s.paths ++ [{ points := s.currentPath, color := s.color, width := s.width }]) := by
  constructor
  · rw [onResults_not_drawing s hand h]
    exact finishPath_currentPath _
  · intro hne
    exact (onResults_finalize s hand h hne).1

/-- C6 witness: a no-hand frame on a state with a live point. -/
theorem nondrawing_frame_clears_live_witness :
    (onResults { paths := []
                 currentPath := [{ x := 1, y := 2 }]
                 color := "#ffffff"
                 width := 5
                 gestureMode := GestureMode.DRAWING } none).currentPath = [] ∧
    (({ paths := []
        currentPath := [{ x := 1, y := 2 }]
        color := "#ffffff"
        width := 5
        gestureMode := GestureMode.DRAWING } : AppState).currentPath ≠ [] →
      (onResults { paths := []
                   currentPath := [{ x := 1, y := 2 }]
                   color := "#ffffff"
                   width := 5
                   gestureMode := GestureMode.DRAWING } none).paths
        = ({ paths := []
             currentPath := [{ x := 1, y := 2 }]
             color := "#ffffff"
             width := 5
             gestureMode := GestureMode.DRAWING } : AppState).paths
          ++ [{ points := [{ x := 1, y := 2 }], color := "#ffffff", width := 5 }]) :=
  nondrawing_frame_clears_live
    { paths := []
      currentPath := [{ x := 1, y := 2 }]
      color := "#ffffff"
      width := 5
      gestureMode := GestureMode.DRAWING } none
    (by simp [classifyFrame])

/-- C7: the Clear action empties both the surface and the live path
regardless of prior state. -/
theorem clear_resets (s : AppState) :
    (clearCanvas s).paths = [] ∧ (clearCanvas s).currentPath = [] :=
  ⟨rfl, rfl⟩

/-- C8: finalizing with an empty live path changes nothing at all. -/
theorem finalize_empty_noop (s : AppState) (h : s.currentPath = []) :
    finishPath s = s :=
  finishPath_empty s h

/-- C8 witness: the initial state is untouched by a finalize. -/
theorem finalize_empty_noop_witness : finishPath initState = initState :=
  finalize_empty_noop initState rfl

/-- C9: a DRAWING frame pushes the mirrored-and-scaled fingertip
`((1 - indexTip.x) * 1280, indexTip.y * 720)` onto the live path; at
`indexTip.x = 3/10` the cursor x is exactly 896. -/
theorem cursor_mirror_scale (s : AppState) (lm : Hand)
    (hdraw : classify lm = GestureMode.DRAWING) :
    (onResults s (some lm)).currentPath
      = s.currentPath ++ [{ x := (1 - (lm 8).x) * canvasWidth
                            y := (lm 8).y * canvasHeight }] ∧
    ((lm 8).x = 3 / 10 → (1 - (lm 8).x) * canvasWidth = 896) := by
  constructor
  · rw [onResults_drawing s lm hdraw]
    rfl
  · intro hx
    rw [hx]
    norm_num [canvasWidth]

/-- C9 witness: the posture whose fingertip x is 3/10, evaluated. -/
theorem cursor_mirror_scale_witness :
    (onResults initState (some (handDrawingAt 896 5))).currentPath
      = initState.currentPath
        ++ [{ x := (1 - (handDrawingAt 896 5 8).x) * canvasWidth
              y := (handDrawingAt 896 5 8).y * canvasHeight }] ∧
    ((handDrawingAt 896 5 8).x = 3 / 10 →
      (1 - (handDrawingAt 896 5 8).x) * canvasWidth = 896) :=
  cursor_mirror_scale initState (handDrawingAt 896 5)
    (classify_handDrawingAt 896 5 (by norm_num))

/-- C10: the persistent-layer renderer issues no draw call for a stroke
with fewer than 2 points, wherever it sits on the surface. -/
theorem short_strokes_not_rendered (l1 l2 : List DrawingPath) (p : DrawingPath)
    (h : p.points.length < 2) :
    renderMainCanvas (l1 ++ p :: l2) = renderMainCanvas (l1 ++ l2) ∧
    renderMainCanvas [p] = [] := by
  constructor
  · simp [renderMainCanvas, h]
  · simp [renderMainCanvas, h]

/-- C10 witness: a one-point stroke renders to nothing. -/
theorem short_strokes_not_rendered_witness :
    renderMainCanvas
        ([] ++ ({ points := [{ x := 5, y := 5 }]
                  color := "#ffffff"
                  width := 5 } : DrawingPath) :: [])
      = renderMainCanvas ([] ++ []) ∧
    renderMainCanvas [{ points := [{ x := 5, y := 5 }], color := "#ffffff", width := 5 }]
      = [] :=
  short_strokes_not_rendered [] []
    { points := [{ x := 5, y := 5 }], color := "#ffffff", width := 5 } (by simp)

end VisionDraw
